import Mathlib

/-!
# sniproxy DNS front end (`src/pkg/dns.go`)

A shallow embedding of the DNS resolver of the proxy: the upstream client
(`PerformExternalAQuery`, `lookupDomain4`), the decision engine
(`processQuestion`), the query handler (`handleDNS`) and the listener start-up
(`RunDNS`).

Conventions of the embedding.

* A Go `error` is an `Option String`: `none` is the nil error, `some msg` an
  error whose `Error()` text is `msg`.
* A Go slice is a `List`; the nil slice and the empty slice are both `[]`.
* A `dns.RR` interface value is an `Option RRData`; `none` is the nil interface.
* The mutable process state (counters, the global `dnsLock`, the traffic on the
  shared upstream connection, the replies written) is threaded explicitly as a
  `State`.
* The collaborators that live outside the repository and whose results are not
  determined by the program (the upstream exchange, the reconnect, the zone
  text parser `dns.NewRR`, the policy engine, the `dns.TypeToString` table) are
  the fields of an `Env`; every theorem quantifies over all of them.
* The embedding is sequential: one call runs at a time. A function that may
  fail to return (a `Lock()` on a mutex that is held, which nothing releases
  in a sequential run, or a recursion that has not finished within the given
  fuel) returns an `Option`; `none` means that it did not return.
* The helper methods of the DNS library that the source calls and that are
  plain field assignments (`SetQuestion`, `SetEdns0`, `SetReply`, `SetRcode`)
  are written out as definitions, from the library source.
-/

namespace Sniproxy

/-! ## Data model -/

/-- Go `error` values: `none` is nil, `some msg` carries the text of `Error()`. -/
abbrev GoError := Option String

/-- The bytes of a `net.IP`; the nil address is `[]`. -/
abbrev IP := List Nat

/-- Record type `dns.TypeA`. -/
def TypeA : Nat := 1
/-- Record type `dns.TypeCNAME`. -/
def TypeCNAME : Nat := 5
/-- Record type `dns.TypeAAAA`. -/
def TypeAAAA : Nat := 28
/-- Record type `dns.TypeOPT`. -/
def TypeOPT : Nat := 41
/-- Class `dns.ClassINET`. -/
def ClassINET : Nat := 1
/-- Opcode `dns.OpcodeQuery`. -/
def OpcodeQuery : Nat := 0
/-- Response code `dns.RcodeSuccess`. -/
def RcodeSuccess : Nat := 0
/-- Response code `dns.RcodeNotImplemented`. -/
def RcodeNotImplemented : Nat := 4

/-- One entry of the question section (`dns.Question`). -/
structure Question where
  Name : String
  Qtype : Nat
  Qclass : Nat
deriving DecidableEq, Repr

/-- The header common to every resource record (`dns.RR_Header`). -/
structure RR_Header where
  Name : String
  Rrtype : Nat
  Class : Nat
  Ttl : Nat
deriving DecidableEq, Repr

/-- The concrete record types behind the `dns.RR` interface that the program
distinguishes. The dynamic type (the constructor) and the `Rrtype` written in
the header are separate, as in Go. -/
inductive RRData where
  | A (Hdr : RR_Header) (A : IP)
  | AAAA (Hdr : RR_Header) (AAAA : IP)
  | CNAME (Hdr : RR_Header) (Target : String)
  | OPT (Hdr : RR_Header)
  | RFC3597 (Hdr : RR_Header) (Rdata : String)
deriving DecidableEq, Repr

/-- The method `Header()` of a record. -/
def RRData.Header : RRData → RR_Header
  | .A h _ => h
  | .AAAA h _ => h
  | .CNAME h _ => h
  | .OPT h => h
  | .RFC3597 h _ => h

/-- A `dns.RR` interface value; `none` is the nil interface. -/
abbrev RR := Option RRData

/-- The fields of `dns.Msg` that the program or the library calls it makes read
or write. The zero value is `new(dns.Msg)`. The message `Id` drawn at random by
`SetQuestion` is not modelled and stays at its zero value. -/
structure Msg where
  Id : Nat := 0
  Response : Bool := false
  Opcode : Nat := 0
  RecursionDesired : Bool := false
  CheckingDisabled : Bool := false
  Rcode : Nat := 0
  Compress : Bool := false
  Question : List Question := []
  Answer : List RR := []
  Extra : List RR := []
deriving DecidableEq, Repr

/-- Modelled from the spec: the type `acl.Decision` is declared in the policy
package, outside `src/`. The source names `ProxyIP`, `Override`, `Accept` and
`Reject`; `Forward` stands for every other value, which reaches the `default`
branch of the switch. -/
inductive Decision where
  | ProxyIP
  | Override
  | Accept
  | Reject
  | Forward
deriving DecidableEq, Repr

/-- A `*DNSClient`: the nil pointer, or a pointer to the client that wraps the
shared upstream connection. -/
inductive DNSClientRef where
  | nil
  | client
deriving DecidableEq, Repr

/-- Modelled from the spec: the struct `Config` is declared outside
`src/pkg/dns.go`. These are the read-only fields the source reads; the two
counters it increments live in `State`. -/
structure Config where
  PublicIPv4 : String
  PublicIPv6 : String
  DnsClient : DNSClientRef
  BindDNSOverUDP : String
  BindDNSOverTCP : String
  BindDNSOverTLS : String
  BindDNSOverQuic : String
  TLSCert : String
  TLSKey : String
deriving DecidableEq, Repr

/-- The argument handed to the policy engine (`acl.ConnInfo`). -/
structure ConnInfo where
  SrcIP : String
  Domain : String
deriving DecidableEq, Repr

/-- The log calls made by the resolver, one constructor per call site. -/
inductive LogEvent where
  | returnedSniproxyAddress (domain : String)
  | rejectedRequest (domain : String)
  | performExternalQuery (domain : String)
  | returnedOriginAddress (fqdn : String) (rtt : Nat)
deriving DecidableEq, Repr

/-- What `dnsclient.Client.Query` returns: records, round-trip time, error. -/
structure QueryResult where
  res : List RR
  trr : Nat
  err : GoError
deriving DecidableEq, Repr

/-- The collaborators outside the repository.

* `Query k msg` is the result of the exchange of `msg` when `k` exchanges have
  already been made on the shared connection.
* `Reconnect k` is the outcome of `Reconnect()` when `k` reconnects have
  already been attempted.
* `NewRR` is `dns.NewRR`, the parser of one record in zone text.
* `MakeDecision` is the decision `acl.MakeDecision` leaves in the `ConnInfo`.
* `TypeToString` is the table `dns.TypeToString` (absent keys give `""`). -/
structure Env where
  Query : Nat → Msg → QueryResult
  Reconnect : Nat → GoError
  NewRR : String → RR × GoError
  MakeDecision : ConnInfo → Decision
  TypeToString : Nat → String

/-- The mutable state of the process that the resolver touches. -/
structure State where
  /-- The counter `c.RecievedDNS`, as the number of increments so far. -/
  RecievedDNS : Nat
  /-- The counter `c.ProxiedDNS`, as the number of increments so far. -/
  ProxiedDNS : Nat
  /-- The global `dnsLock`: `true` when it is held. -/
  dnsLock : Bool
  /-- The requests handed to `Query` on the shared connection, oldest first. -/
  sent : List Msg
  /-- The number of `Reconnect()` calls made on the shared connection. -/
  reconnects : Nat
  /-- The consultations of the policy engine, oldest first. -/
  aclCalls : List ConnInfo
  /-- The messages passed to `WriteMsg`, oldest first. -/
  written : List Msg
  /-- The log calls, oldest first. -/
  log : List LogEvent
deriving DecidableEq, Repr

/-! ## Library helpers called by the source -/

/-- The function `strings.HasSuffix`: whether `s` ends with `suffix`. -/
def HasSuffix (s suffix : String) : Bool :=
  suffix.data.isSuffixOf s.data

/-- The method `(*dns.Msg).SetQuestion` of the DNS library: asks for recursion
and installs the one question `z`/`t` in class IN (it also draws a fresh
message id, which is not modelled). -/
def SetQuestion (m : Msg) (z : String) (t : Nat) : Msg :=
  { m with RecursionDesired := true, Question := [⟨z, t, ClassINET⟩] }

/-- The method `(*dns.Msg).SetEdns0` of the DNS library: appends to the
additional section an OPT record owned by the root, whose class field carries
the UDP buffer size and whose TTL field carries the DO bit (bit 15). -/
def SetEdns0 (m : Msg) (udpsize : Nat) (DO : Bool) : Msg :=
  { m with Extra := m.Extra ++
      [some (.OPT ⟨".", TypeOPT, udpsize, if DO then 32768 else 0⟩)] }

/-- The method `(*dns.Msg).SetReply` of the DNS library (`github.com/miekg/dns`,
file `defaults.go`), which `handleDNS` calls on the fresh reply: it copies the
id and the opcode, marks the message as a response with rcode success, copies
the RD and CD bits when the opcode is a standard query, and, when the request
has a question, sets the question section of the reply to the one-element
slice `[]Question{request.Question[0]}`: only the FIRST question is copied.
The answer section is not touched. -/
def SetReply (m request : Msg) : Msg :=
  let m := { m with Id := request.Id, Response := true, Opcode := request.Opcode }
  let m := if m.Opcode = OpcodeQuery then
      { m with RecursionDesired := request.RecursionDesired,
               CheckingDisabled := request.CheckingDisabled }
    else m
  let m := { m with Rcode := RcodeSuccess }
  match request.Question with
  | [] => m
  | q :: _ => { m with Question := [q] }

/-- The method `(*dns.Msg).SetRcode` of the DNS library: `SetReply` on the same
request, followed by the assignment of the rcode. -/
def SetRcode (m request : Msg) (rcode : Nat) : Msg :=
  { SetReply m request with Rcode := rcode }

/-! ## Upstream resolver client -/

/-- The name made fully qualified, as both `PerformExternalAQuery` and
`lookupDomain4` do in their first statement. -/
def fqdnOf (name : String) : String :=
  if !HasSuffix name "." then name ++ "." else name

/-- The request `PerformExternalAQuery` builds for `fqdn` and `QType`. -/
def buildQuery (fqdn : String) (QType : Nat) : Msg :=
  let msg : Msg := {}
  let msg := { msg with RecursionDesired := true }
  let msg := SetQuestion msg fqdn QType
  SetEdns0 msg 1232 true

/-- The method `(*DNSClient).PerformExternalAQuery`. `none`: the call blocks in
`dnsLock.Lock()` because the lock is held. -/
def PerformExternalAQuery (env : Env) (dnsc : DNSClientRef) (fqdn : String)
    (QType : Nat) (s : State) : Option (QueryResult × State) :=
  let fqdn := if !HasSuffix fqdn "." then fqdn ++ "." else fqdn
  let msg := buildQuery fqdn QType
  if s.dnsLock then none
  else
    let s := { s with dnsLock := true }
    match dnsc with
    | .nil => some (⟨[], 0, some "dns client is not initialised"⟩, s)
    | .client =>
      let r := env.Query s.sent.length msg
      let s := { s with sent := s.sent ++ [msg] }
      match r.err with
      | some e =>
        if e = "EOF" then
          let err := env.Reconnect s.reconnects
          let s := { s with reconnects := s.reconnects + 1 }
          some (⟨r.res, r.trr, err⟩, { s with dnsLock := false })
        else
          some (⟨r.res, r.trr, some e⟩, { s with dnsLock := false })
      | none => some (⟨r.res, r.trr, none⟩, { s with dnsLock := false })

/-- What a call of `lookupDomain4` that returns can do: return an address and
an error, or panic (a method call on a nil record, or a failed type
assertion). -/
inductive LookupOutcome where
  | ret (ip : IP) (err : GoError)
  | panicked
deriving DecidableEq, Repr

/-- The method `DNSClient.lookupDomain4`, with the depth of the recursion bounded
by a fuel (the source has no bound). `none`: the call did not return, either
blocked on the lock or still recursing when the fuel ran out. The receiver is
a value, so the pointer passed on to `PerformExternalAQuery` is never nil. -/
def lookupDomain4 (env : Env) : Nat → String → State → Option (LookupOutcome × State)
  | 0, _, _ => none
  | fuel + 1, domain, s =>
    let domain := if !HasSuffix domain "." then domain ++ "." else domain
    match PerformExternalAQuery env .client domain TypeA s with
    | none => none
    | some (r, s) =>
      match r.err with
      | some e => some (.ret [] (some e), s)
      | none =>
        match r.res with
        | [] => some (.ret [] (some ("[DNS] Empty DNS response for " ++ domain)), s)
        | none :: _ => some (.panicked, s)
        | some rr :: _ =>
          if rr.Header.Rrtype = TypeCNAME then
            match rr with
            | .CNAME _ target => lookupDomain4 env fuel target s
            | _ => some (.panicked, s)
          else if rr.Header.Rrtype = TypeA then
            match rr with
            | .A _ ip => some (.ret ip none, s)
            | _ => some (.panicked, s)
          else
            some (.ret [] (some ("[DNS] Unknown type " ++
              env.TypeToString rr.Header.Rrtype)), s)

/-! ## Decision engine -/

/-- The function `processQuestion`. The result is the pair `(records, error)`
the source returns, with the state after the call; `none`: the call blocked in
the upstream client. -/
def processQuestion (env : Env) (c : Config) (q : Question) (decision : Decision)
    (s : State) : Option ((List RR × GoError) × State) :=
  let s := { s with RecievedDNS := s.RecievedDNS + 1 }
  match decision with
  | .ProxyIP | .Override | .Accept =>
    let s := { s with ProxiedDNS := s.ProxiedDNS + 1,
                      log := s.log ++ [.returnedSniproxyAddress q.Name] }
    if q.Qtype = TypeA then
      let (rr, err) := env.NewRR (q.Name ++ " A " ++ c.PublicIPv4)
      some (([rr], err), s)
    else if q.Qtype = TypeAAAA then
      if c.PublicIPv6 ≠ "" then
        let (rr, err) := env.NewRR (q.Name ++ " AAAA " ++ c.PublicIPv6)
        some (([rr], err), s)
      else
        some (([], none), s)
    else
      some (([], none), s)
  | .Reject =>
    let s := { s with log := s.log ++ [.rejectedRequest q.Name] }
    some (([], none), s)
  | .Forward =>
    let s := { s with log := s.log ++ [.performExternalQuery q.Name] }
    match PerformExternalAQuery env c.DnsClient q.Name q.Qtype s with
    | none => none
    | some (r, s) =>
      match r.err with
      | some e => some (([], some e), s)
      | none =>
        let s := { s with log := s.log ++ [.returnedOriginAddress q.Name r.trr] }
        some ((r.res, none), s)

/-! ## Query handler -/

/-- The part of `dns.ResponseWriter` the handler uses: the remote address.
`WriteMsg` is modelled by `WriteMsg` below. -/
structure ResponseWriter where
  RemoteAddr : String
deriving DecidableEq, Repr

/-- The method `WriteMsg` of the response writer: the message is recorded as
written (the handler ignores the error it returns). -/
def WriteMsg (m : Msg) (s : State) : State :=
  { s with written := s.written ++ [m] }

/-- The `for _, q := range m.Question` loop of `handleDNS`, over the questions
still to visit, with the reply `m` under construction. -/
def questionLoop (env : Env) (c : Config) (w : ResponseWriter) :
    List Question → Msg → State → Option (Msg × State)
  | [], m, s => some (m, s)
  | q :: qs, m, s =>
    let connInfo : ConnInfo := { SrcIP := w.RemoteAddr, Domain := q.Name }
    let decision := env.MakeDecision connInfo
    let s := { s with aclCalls := s.aclCalls ++ [connInfo] }
    match processQuestion env c q decision s with
    | none => none
    | some ((answers, err), s) =>
      match err with
      | some _ => questionLoop env c w qs m s
      | none => questionLoop env c w qs { m with Answer := m.Answer ++ answers } s

/-- The handler returned by `handleDNS`, applied to the writer `w` and the
inbound message `r`. `none`: the handler blocked in the upstream client. -/
def handleDNS (env : Env) (c : Config) (w : ResponseWriter) (r : Msg) (s : State) :
    Option State :=
  let m : Msg := {}
  let m := SetReply m r
  let m := { m with Compress := false }
  if r.Opcode ≠ OpcodeQuery then
    let m := SetRcode m r RcodeNotImplemented
    some (WriteMsg m s)
  else
    match questionLoop env c w m.Question m s with
    | none => none
    | some (m, s) => some (WriteMsg m s)

/-! ## Listener start-up -/

/-- The log calls made by `RunDNS`, one constructor per call site. -/
inductive RunLog where
  | startedUDP (addr : String)
  | errorStartingUDP (err : String)
  | failedToStartHint (addr : String)
  | startedTCP (addr : String)
  | failedToStartTCP (err : String)
  | tlsError (err : String)
  | startedDoT (addr : String)
  | quicError (err : String)
  | startingQuic (addr : String)
deriving DecidableEq, Repr

/-- How a goroutine started by `RunDNS` ends once its blocking call is over: it
returns, or it panics with a value, which terminates the process. -/
inductive GoroutineExit where
  | returned
  | panicked (v : Nat)
deriving DecidableEq, Repr

/-- One run of a listener goroutine: its log lines, whether the deferred
`Shutdown()` ran, and how it ended. -/
structure ListenerRun where
  log : List RunLog
  shutdown : Bool
  exit : GoroutineExit
deriving DecidableEq, Repr

/-- The body of the UDP goroutine of `RunDNS`; `listenErr` is what
`serverUDP.ListenAndServe()` returned. -/
def serveUDP (c : Config) (listenErr : GoError) : ListenerRun :=
  let log := [RunLog.startedUDP c.BindDNSOverUDP]
  match listenErr with
  | some err =>
    { log := log ++ [.errorStartingUDP err, .failedToStartHint c.BindDNSOverUDP],
      shutdown := true, exit := .panicked 2 }
  | none => { log := log, shutdown := true, exit := .returned }

/-- The body of the TCP goroutine of `RunDNS`; `listenErr` is what
`serverTCP.ListenAndServe()` returned. -/
def serveTCP (c : Config) (listenErr : GoError) : ListenerRun :=
  let log := [RunLog.startedTCP c.BindDNSOverTCP]
  match listenErr with
  | some err =>
    { log := log ++ [.failedToStartTCP err, .failedToStartHint c.BindDNSOverUDP],
      shutdown := true, exit := .returned }
  | none => { log := log, shutdown := true, exit := .returned }

/-- The body of the TLS goroutine of `RunDNS`; `loadErr` is the error of
`tls.LoadX509KeyPair` and `listenErr` what `serverTLS.ListenAndServe()`
returned (it is only called when the key pair loaded). -/
def serveTLS (c : Config) (loadErr listenErr : GoError) : ListenerRun :=
  match loadErr with
  | some err => { log := [.tlsError err], shutdown := false, exit := .panicked 2 }
  | none =>
    let log := [RunLog.startedDoT c.BindDNSOverTLS]
    match listenErr with
    | some err => { log := log ++ [.tlsError err], shutdown := true, exit := .returned }
    | none => { log := log, shutdown := true, exit := .returned }

/-- The outcomes of the external calls `RunDNS` makes. -/
structure StartOutcomes where
  udpListen : GoError
  tcpListen : GoError
  tlsLoad : GoError
  tlsListen : GoError
  quicLoad : GoError
  quicNew : GoError
deriving DecidableEq, Repr

/-- What `RunDNS` set in motion: the runs of the listener goroutines it started
(absent when the bind address is empty), and the log lines of the QUIC block,
which runs in the calling goroutine and hands the listener to the external
QUIC server. -/
structure RunResult where
  udp : Option ListenerRun
  tcp : Option ListenerRun
  tls : Option ListenerRun
  quicLog : List RunLog
deriving DecidableEq, Repr

/-- The function `RunDNS`, each listener goroutine run to the end of its body. -/
def RunDNS (c : Config) (o : StartOutcomes) : RunResult :=
  { udp := if c.BindDNSOverUDP ≠ "" then some (serveUDP c o.udpListen) else none,
    tcp := if c.BindDNSOverTCP ≠ "" then some (serveTCP c o.tcpListen) else none,
    tls := if c.BindDNSOverTLS ≠ "" then some (serveTLS c o.tlsLoad o.tlsListen) else none,
    quicLog :=
      if c.BindDNSOverQuic ≠ "" then
        (match o.quicLoad with | some e => [RunLog.quicError e] | none => []) ++
        (match o.quicNew with | some e => [RunLog.quicError e] | none => []) ++
        [.startingQuic c.BindDNSOverQuic]
      else [] }

/-- Whether a listener goroutine (if started) ended in a panic. -/
def ListenerRun.fatal : Option ListenerRun → Bool
  | some ⟨_, _, .panicked _⟩ => true
  | _ => false

/-- Whether one of the three listener goroutines of `RunDNS` panicked, which
terminates the process. -/
def RunResult.terminated (r : RunResult) : Bool :=
  ListenerRun.fatal r.udp || ListenerRun.fatal r.tcp || ListenerRun.fatal r.tls

/-! ## Alias chains of an upstream -/

/-- The address reached from `d` in an upstream that answers the A question for
a fully-qualified name `fq` with `answers fq`: follow the first record of each
answer through exactly `n` CNAME records to an answer whose first record is an
A record. `none` when the answers do not have that shape. -/
def followChain (answers : String → List RR) : Nat → String → Option IP
  | 0, d =>
    match answers (fqdnOf d) with
    | some (.A h ip) :: _ => if h.Rrtype = TypeA then some ip else none
    | _ => none
  | n + 1, d =>
    match answers (fqdnOf d) with
    | some (.CNAME h target) :: _ =>
      if h.Rrtype = TypeCNAME then followChain answers n target else none
    | _ => none

/-! ## Sample environment used to evaluate the definitions -/

/-- A record header in class IN with the TTL `dns.NewRR` gives by default. -/
def hdr (name : String) (rrtype : Nat) : RR_Header :=
  ⟨name, rrtype, ClassINET, 3600⟩

/-- A sample upstream: `a.example.` is an alias of `b.example.`, which has the
address 10.0.0.5; every other name has no record. -/
def sampleAnswers (name : String) : List RR :=
  if name = "a.example." then [some (.CNAME (hdr "a.example." TypeCNAME) "b.example.")]
  else if name = "b.example." then [some (.A (hdr "b.example." TypeA) [10, 0, 0, 5])]
  else []

/-- The name asked by a request (its first question), `""` when it has none. -/
def askedName (m : Msg) : String :=
  match m.Question with
  | q :: _ => q.Name
  | [] => ""

/-- A sample environment: the upstream of `sampleAnswers`, which fails with
`EOF` on `eof.example.`; reconnects that are refused; a parser that knows two
zone lines; a policy that rejects `blocked.example.`, proxies `proxy.example.`
and forwards the rest. -/
def sampleEnv : Env where
  Query := fun _ m =>
    if askedName m = "eof.example." then ⟨[], 0, some "EOF"⟩
    else ⟨sampleAnswers (askedName m), 7, none⟩
  Reconnect := fun _ => some "connection refused"
  NewRR := fun line =>
    if line = "proxy.example. A 192.0.2.1" then
      (some (.A (hdr "proxy.example." TypeA) [192, 0, 2, 1]), none)
    else if line = "proxy.example. AAAA 2001:db8::1" then
      (some (.AAAA (hdr "proxy.example." TypeAAAA)
        [32, 1, 13, 184, 0, 0, 0, 0, 0, 0, 0, 0, 0, 0, 0, 1]), none)
    else (none, some "dns: not a TTL")
  MakeDecision := fun ci =>
    if ci.Domain = "blocked.example." then .Reject
    else if ci.Domain = "proxy.example." then .ProxyIP
    else .Forward
  TypeToString := fun t =>
    if t = TypeA then "A" else if t = TypeCNAME then "CNAME"
    else if t = TypeAAAA then "AAAA" else ""

/-- The sample environment with an upstream that never fails: every exchange
returns the records of `sampleAnswers` for the name asked. -/
def stableEnv : Env :=
  { sampleEnv with Query := fun _ m => ⟨sampleAnswers (askedName m), 7, none⟩ }

/-- A sample configuration with both public addresses and the TLS listener only. -/
def sampleConfig : Config where
  PublicIPv4 := "192.0.2.1"
  PublicIPv6 := "2001:db8::1"
  DnsClient := .client
  BindDNSOverUDP := ""
  BindDNSOverTCP := ""
  BindDNSOverTLS := "0.0.0.0:853"
  BindDNSOverQuic := ""
  TLSCert := "cert.pem"
  TLSKey := "key.pem"

/-- The state of a fresh process: counters at zero, the lock free, nothing sent,
written or logged. -/
def State.init : State :=
  ⟨0, 0, false, [], 0, [], [], []⟩

/-! ## Basic facts about the helpers -/

/-- A name to which a dot was appended ends with a dot. -/
theorem HasSuffix_append_dot (name : String) : HasSuffix (name ++ ".") "." = true := by
  unfold HasSuffix
  rw [List.isSuffixOf_iff_suffix, String.data_append]
  exact List.suffix_append _ _

/-- The fully-qualified form of a name ends with a dot. -/
theorem HasSuffix_fqdnOf (name : String) : HasSuffix (fqdnOf name) "." = true := by
  unfold fqdnOf
  by_cases h : HasSuffix name "." = true
  · simp [h]
  · simp [h, HasSuffix_append_dot]

/-- A name that ends with a dot is its own fully-qualified form. -/
theorem fqdnOf_of_HasSuffix (name : String) (h : HasSuffix name "." = true) :
    fqdnOf name = name := by
  simp [fqdnOf, h]

/-- Making a name fully qualified twice is the same as doing it once. -/
theorem fqdnOf_fqdnOf (name : String) : fqdnOf (fqdnOf name) = fqdnOf name :=
  fqdnOf_of_HasSuffix _ (HasSuffix_fqdnOf name)

/-- The body of `PerformExternalAQuery` with its local bindings inlined. -/
theorem PerformExternalAQuery_eq (env : Env) (dnsc : DNSClientRef) (fqdn : String)
    (QType : Nat) (s : State) :
    PerformExternalAQuery env dnsc fqdn QType s =
      if s.dnsLock then none
      else
        match dnsc with
        | .nil =>
          some (⟨[], 0, some "dns client is not initialised"⟩, { s with dnsLock := true })
        | .client =>
          match (env.Query s.sent.length (buildQuery (fqdnOf fqdn) QType)).err with
          | some e =>
            if e = "EOF" then
              some (⟨(env.Query s.sent.length (buildQuery (fqdnOf fqdn) QType)).res,
                     (env.Query s.sent.length (buildQuery (fqdnOf fqdn) QType)).trr,
                     env.Reconnect s.reconnects⟩,
                    { s with sent := s.sent ++ [buildQuery (fqdnOf fqdn) QType],
                             reconnects := s.reconnects + 1, dnsLock := false })
            else
              some (⟨(env.Query s.sent.length (buildQuery (fqdnOf fqdn) QType)).res,
                     (env.Query s.sent.length (buildQuery (fqdnOf fqdn) QType)).trr,
                     some e⟩,
                    { s with sent := s.sent ++ [buildQuery (fqdnOf fqdn) QType],
                             dnsLock := false })
          | none =>
            some (⟨(env.Query s.sent.length (buildQuery (fqdnOf fqdn) QType)).res,
                   (env.Query s.sent.length (buildQuery (fqdnOf fqdn) QType)).trr,
                   none⟩,
                  { s with sent := s.sent ++ [buildQuery (fqdnOf fqdn) QType],
                           dnsLock := false }) := by
  rfl

/-- A call on an initialised client whose exchange succeeds returns the records
of the exchange with a nil error, records the request as sent and leaves the
lock free. -/
theorem PerformExternalAQuery_ok (env : Env) (fqdn : String) (QType : Nat) (s : State)
    (hlock : s.dnsLock = false)
    (herr : (env.Query s.sent.length (buildQuery (fqdnOf fqdn) QType)).err = none) :
    PerformExternalAQuery env .client fqdn QType s =
      some (⟨(env.Query s.sent.length (buildQuery (fqdnOf fqdn) QType)).res,
             (env.Query s.sent.length (buildQuery (fqdnOf fqdn) QType)).trr, none⟩,
            { s with sent := s.sent ++ [buildQuery (fqdnOf fqdn) QType],
                     dnsLock := false }) := by
  rw [PerformExternalAQuery_eq]
  simp only [hlock, herr]
  rfl

/-! ## Upstream client: reconnect on end of stream, and the lock -/

/-- C1 (as stated, refuted): in the sample environment the exchange for
`eof.example.` fails with the error `EOF`, the reconnect is refused, and the
error the caller receives is the one of the reconnect, not the `EOF` of the
exchange. -/
theorem PerformExternalAQuery_eof_error_is_replaced :
    (sampleEnv.Query State.init.sent.length (buildQuery (fqdnOf "eof.example.") TypeA)).err
        = some "EOF" ∧
      (PerformExternalAQuery sampleEnv .client "eof.example." TypeA State.init).map
        (fun out => out.1.err) = some (some "connection refused") ∧
      some "connection refused" ≠ some "EOF" := by
  decide

/-- C1 (amended): when the exchange of a call on an initialised client fails
with the error text `EOF` (the lock being free at the call), the call returns,
the request was sent once and is not retried, exactly one `Reconnect` was
attempted, the lock is free again, and when that reconnect fails the error
returned is the error of the reconnect. -/
theorem PerformExternalAQuery_eof_reconnects_once (env : Env) (fqdn : String)
    (QType : Nat) (s : State)
    (hlock : s.dnsLock = false)
    (heof : (env.Query s.sent.length (buildQuery (fqdnOf fqdn) QType)).err = some "EOF") :
    ∃ r s', PerformExternalAQuery env .client fqdn QType s = some (r, s') ∧
      s'.reconnects = s.reconnects + 1 ∧
      s'.sent = s.sent ++ [buildQuery (fqdnOf fqdn) QType] ∧
      s'.dnsLock = false ∧
      r.res = (env.Query s.sent.length (buildQuery (fqdnOf fqdn) QType)).res ∧
      ∀ e, env.Reconnect s.reconnects = some e → r.err = some e := by
  rw [PerformExternalAQuery_eq]
  simp only [hlock, heof]
  refine ⟨_, _, rfl, rfl, rfl, rfl, rfl, ?_⟩
  intro e he
  exact he

/-- The amended C1 at the sample environment: the exchange for `eof.example`
fails with `EOF` and the reconnect is refused. -/
theorem PerformExternalAQuery_eof_reconnects_once_witness :
    ∃ r s', PerformExternalAQuery sampleEnv .client "eof.example" TypeA State.init
        = some (r, s') ∧
      s'.reconnects = State.init.reconnects + 1 ∧
      s'.sent = State.init.sent ++ [buildQuery (fqdnOf "eof.example") TypeA] ∧
      s'.dnsLock = false ∧
      r.res = (sampleEnv.Query State.init.sent.length
        (buildQuery (fqdnOf "eof.example") TypeA)).res ∧
      ∀ e, sampleEnv.Reconnect State.init.reconnects = some e → r.err = some e :=
  PerformExternalAQuery_eof_reconnects_once sampleEnv "eof.example" TypeA State.init
    (by decide) (by decide)

/-- The other outcome of the reconnect: when the exchange fails with `EOF` and
the reconnect succeeds, the call returns the records of the failed exchange
with a nil error. -/
theorem PerformExternalAQuery_eof_reconnect_ok (env : Env) (fqdn : String)
    (QType : Nat) (s : State)
    (hlock : s.dnsLock = false)
    (heof : (env.Query s.sent.length (buildQuery (fqdnOf fqdn) QType)).err = some "EOF")
    (hre : env.Reconnect s.reconnects = none) :
    ∃ r s', PerformExternalAQuery env .client fqdn QType s = some (r, s') ∧
      r.err = none := by
  rw [PerformExternalAQuery_eq]
  simp only [hlock, heof]
  exact ⟨_, _, rfl, hre⟩

/-- C10 (the code at the failing input): a call on the nil client that starts
with the lock free returns the error `dns client is not initialised` with the
lock still held, and every call that follows blocks. -/
theorem PerformExternalAQuery_nil_client_keeps_lock (env : Env) (fqdn : String)
    (QType : Nat) (s : State) :
    PerformExternalAQuery env .nil fqdn QType { s with dnsLock := false } =
        some (⟨[], 0, some "dns client is not initialised"⟩, { s with dnsLock := true }) ∧
      ∀ dnsc fqdn2 QType2,
        PerformExternalAQuery env dnsc fqdn2 QType2 { s with dnsLock := true } = none := by
  constructor
  · rfl
  · intro dnsc fqdn2 QType2
    rfl

/-! ## Decision engine -/

/-- C2: for an A question decided `ProxyIP`, `Override` or `Accept`, when
`NewRR` parses the line made of the question name, `A` and the public IPv4
address into the record `rr` without error, `processQuestion` returns exactly
that one record and a nil error (and counts the question as received and as
proxied, without any upstream traffic). -/
theorem processQuestion_A_proxied (env : Env) (c : Config) (q : Question)
    (decision : Decision) (s : State) (rr : RRData)
    (hq : q.Qtype = TypeA)
    (hd : decision = .ProxyIP ∨ decision = .Override ∨ decision = .Accept)
    (hrr : env.NewRR (q.Name ++ " A " ++ c.PublicIPv4) = (some rr, none)) :
    ∃ records s', processQuestion env c q decision s = some ((records, none), s') ∧
      records = [some rr] ∧ records.length = 1 ∧
      s'.RecievedDNS = s.RecievedDNS + 1 ∧ s'.ProxiedDNS = s.ProxiedDNS + 1 ∧
      s'.sent = s.sent := by
  have key : processQuestion env c q decision s =
      some (([some rr], none),
        { s with RecievedDNS := s.RecievedDNS + 1, ProxiedDNS := s.ProxiedDNS + 1,
                 log := s.log ++ [.returnedSniproxyAddress q.Name] }) := by
    rcases hd with h | h | h <;> subst h <;>
      simp [processQuestion, hq, hrr]
  exact ⟨_, _, key, rfl, rfl, rfl, rfl, rfl⟩

/-- C2 at the sample environment: the A question for `proxy.example.` under
`Override` with the public address 192.0.2.1. -/
theorem processQuestion_A_proxied_witness :
    ∃ records s', processQuestion sampleEnv sampleConfig ⟨"proxy.example.", TypeA, ClassINET⟩
        .Override State.init = some ((records, none), s') ∧
      records = [some (.A (hdr "proxy.example." TypeA) [192, 0, 2, 1])] ∧
      records.length = 1 ∧
      s'.RecievedDNS = State.init.RecievedDNS + 1 ∧
      s'.ProxiedDNS = State.init.ProxiedDNS + 1 ∧
      s'.sent = State.init.sent :=
  processQuestion_A_proxied sampleEnv sampleConfig ⟨"proxy.example.", TypeA, ClassINET⟩
    .Override State.init (.A (hdr "proxy.example." TypeA) [192, 0, 2, 1])
    (by decide) (by decide) (by decide)

/-- C3: for an AAAA question decided `ProxyIP`, `Override` or `Accept`: with an
empty `PublicIPv6` the result is the empty record list and a nil error; with a
non-empty `PublicIPv6` that `NewRR` parses (after the question name and `AAAA`)
into the record `rr` without error, the result is exactly that one record and a
nil error. -/
theorem processQuestion_AAAA_proxied (env : Env) (c : Config) (q : Question)
    (decision : Decision) (s : State)
    (hq : q.Qtype = TypeAAAA)
    (hd : decision = .ProxyIP ∨ decision = .Override ∨ decision = .Accept) :
    (c.PublicIPv6 = "" →
      ∃ s', processQuestion env c q decision s = some (([], none), s')) ∧
    (∀ rr, c.PublicIPv6 ≠ "" →
      env.NewRR (q.Name ++ " AAAA " ++ c.PublicIPv6) = (some rr, none) →
      ∃ s', processQuestion env c q decision s = some (([some rr], none), s')) := by
  have hne : TypeAAAA ≠ TypeA := by decide
  constructor
  · intro h6
    refine ⟨{ s with RecievedDNS := s.RecievedDNS + 1, ProxiedDNS := s.ProxiedDNS + 1,
                     log := s.log ++ [.returnedSniproxyAddress q.Name] }, ?_⟩
    rcases hd with h | h | h <;> subst h <;>
      simp [processQuestion, hq, hne, h6]
  · intro rr h6 hrr
    refine ⟨{ s with RecievedDNS := s.RecievedDNS + 1, ProxiedDNS := s.ProxiedDNS + 1,
                     log := s.log ++ [.returnedSniproxyAddress q.Name] }, ?_⟩
    rcases hd with h | h | h <;> subst h <;>
      simp [processQuestion, hq, hne, h6, hrr]

/-- C3 at the sample environment: the AAAA question for `proxy.example.` under
`Accept`, without and with a public IPv6 address. -/
theorem processQuestion_AAAA_proxied_witness :
    (∃ s', processQuestion sampleEnv { sampleConfig with PublicIPv6 := "" }
        ⟨"proxy.example.", TypeAAAA, ClassINET⟩ .Accept State.init
        = some (([], none), s')) ∧
    (∃ s', processQuestion sampleEnv sampleConfig
        ⟨"proxy.example.", TypeAAAA, ClassINET⟩ .Accept State.init
        = some (([some (.AAAA (hdr "proxy.example." TypeAAAA)
            [32, 1, 13, 184, 0, 0, 0, 0, 0, 0, 0, 0, 0, 0, 0, 1])], none), s')) :=
  ⟨(processQuestion_AAAA_proxied sampleEnv { sampleConfig with PublicIPv6 := "" }
      ⟨"proxy.example.", TypeAAAA, ClassINET⟩ .Accept State.init
      (by decide) (by decide)).1 (by decide),
   (processQuestion_AAAA_proxied sampleEnv sampleConfig
      ⟨"proxy.example.", TypeAAAA, ClassINET⟩ .Accept State.init
      (by decide) (by decide)).2 _ (by decide) (by decide)⟩

/-- C4: with the decision `Reject`, for every question and configuration,
`processQuestion` returns the empty record list and a nil error, adds exactly
one to the received counter, leaves the proxied counter unchanged, and makes no
upstream exchange (nothing is sent, no reconnect, the lock is untouched). -/
theorem processQuestion_Reject (env : Env) (c : Config) (q : Question) (s : State) :
    ∃ s', processQuestion env c q .Reject s = some (([], none), s') ∧
      s'.RecievedDNS = s.RecievedDNS + 1 ∧
      s'.ProxiedDNS = s.ProxiedDNS ∧
      s'.sent = s.sent ∧ s'.reconnects = s.reconnects ∧ s'.dnsLock = s.dnsLock ∧
      s'.written = s.written ∧
      s'.log = s.log ++ [.rejectedRequest q.Name] :=
  ⟨_, rfl, rfl, rfl, rfl, rfl, rfl, rfl, rfl⟩

/-! ## Query handler -/

/-- The reply of `SetReply` to a request never carries an answer when the
message it is applied to carries none. -/
theorem SetReply_Answer (m r : Msg) : (SetReply m r).Answer = m.Answer := by
  unfold SetReply
  cases r.Question <;> simp only [] <;> split <;> rfl

/-- The question section `SetReply` installs in a fresh message is the first
question of the request alone. -/
theorem SetReply_Question (r : Msg) : (SetReply {} r).Question = r.Question.take 1 := by
  unfold SetReply
  cases r.Question <;> simp only [] <;> first | rfl | (split <;> rfl)

/-- C5 (as stated, refuted): a standard query with two questions, the first
decided `Reject` and the second an A question decided `ProxyIP` (for which
`processQuestion` returns one record and no error), is answered by one reply
whose answer section is empty. -/
theorem handleDNS_second_question_unanswered :
    sampleEnv.MakeDecision ⟨"198.51.100.7:5353", "blocked.example."⟩ = .Reject ∧
    sampleEnv.MakeDecision ⟨"198.51.100.7:5353", "proxy.example."⟩ = .ProxyIP ∧
    (processQuestion sampleEnv sampleConfig ⟨"proxy.example.", TypeA, ClassINET⟩
        .ProxyIP State.init).map (fun out => out.1) =
      some ([some (.A (hdr "proxy.example." TypeA) [192, 0, 2, 1])], none) ∧
    (handleDNS sampleEnv sampleConfig ⟨"198.51.100.7:5353"⟩
        { Opcode := OpcodeQuery,
          Question := [⟨"blocked.example.", TypeA, ClassINET⟩,
                       ⟨"proxy.example.", TypeA, ClassINET⟩] }
        State.init).map (fun s' => s'.written.map (fun m => m.Answer)) = some [[]] := by
  decide

/-- A call of `PerformExternalAQuery` that starts with the lock free returns,
whatever the client, the upstream and the reconnect do; it writes no reply. -/
theorem PerformExternalAQuery_returns (env : Env) (dnsc : DNSClientRef) (fqdn : String)
    (QType : Nat) (s : State) (hlock : s.dnsLock = false) :
    ∃ r s', PerformExternalAQuery env dnsc fqdn QType s = some (r, s') ∧
      s'.written = s.written ∧ s'.aclCalls = s.aclCalls := by
  rw [PerformExternalAQuery_eq]
  simp only [hlock]
  cases dnsc with
  | nil => exact ⟨_, _, rfl, rfl, rfl⟩
  | client =>
    cases (env.Query s.sent.length (buildQuery (fqdnOf fqdn) QType)).err with
    | none => exact ⟨_, _, rfl, rfl, rfl⟩
    | some e =>
      by_cases he : e = "EOF"
      · simp only [he]
        exact ⟨_, _, rfl, rfl, rfl⟩
      · simp only [he]
        exact ⟨_, _, rfl, rfl, rfl⟩

/-- A call of `processQuestion` that starts with the lock free returns, for
every decision; it writes no reply and does not consult the policy. -/
theorem processQuestion_returns (env : Env) (c : Config) (q : Question)
    (decision : Decision) (s : State) (hlock : s.dnsLock = false) :
    ∃ answers err s', processQuestion env c q decision s = some ((answers, err), s') ∧
      s'.written = s.written ∧ s'.aclCalls = s.aclCalls := by
  cases decision with
  | Forward =>
    obtain ⟨r, s1, h1, hw, ha⟩ := PerformExternalAQuery_returns env c.DnsClient q.Name
      q.Qtype { s with RecievedDNS := s.RecievedDNS + 1,
                       log := s.log ++ [.performExternalQuery q.Name] } hlock
    unfold processQuestion
    simp only [h1]
    cases r.err with
    | none => exact ⟨_, _, _, rfl, hw, ha⟩
    | some e => exact ⟨_, _, _, rfl, hw, ha⟩
  | Reject => exact ⟨_, _, _, rfl, rfl, rfl⟩
  | ProxyIP =>
    unfold processQuestion
    simp only []
    split_ifs <;> exact ⟨_, _, _, rfl, rfl, rfl⟩
  | Override =>
    unfold processQuestion
    simp only []
    split_ifs <;> exact ⟨_, _, _, rfl, rfl, rfl⟩
  | Accept =>
    unfold processQuestion
    simp only []
    split_ifs <;> exact ⟨_, _, _, rfl, rfl, rfl⟩

/-- C5 (amended): for an inbound message with the standard-query opcode,
received with the lock free, the handler returns and writes exactly one reply,
whose question section is the first question of the request alone. Without a
question nothing else happens and the answer section is empty. With questions,
only the first one is looked at: the policy is asked for it, `processQuestion`
runs on it and returns, and the answer section of the reply is the record list
it returned when it returned no error, and empty when it returned an error;
the state after the handler is the state after that one question plus the
reply written, so no later question is processed. -/
theorem handleDNS_answers_first_question (env : Env) (c : Config) (w : ResponseWriter)
    (r : Msg) (s : State) (hop : r.Opcode = OpcodeQuery) (hlock : s.dnsLock = false) :
    ∃ m s', handleDNS env c w r s = some (WriteMsg m s') ∧
      (WriteMsg m s').written = s.written ++ [m] ∧
      m.Question = r.Question.take 1 ∧
      (r.Question = [] → s' = s ∧ m.Answer = []) ∧
      (∀ q rest, r.Question = q :: rest →
        ∃ answers err,
          processQuestion env c q (env.MakeDecision ⟨w.RemoteAddr, q.Name⟩)
              { s with aclCalls := s.aclCalls ++ [⟨w.RemoteAddr, q.Name⟩] }
            = some ((answers, err), s') ∧
          s'.aclCalls = s.aclCalls ++ [⟨w.RemoteAddr, q.Name⟩] ∧
          m.Answer = (match err with
            | none => answers
            | some _ => [])) := by
  have hop' : ¬ (r.Opcode ≠ OpcodeQuery) := by simp [hop]
  have hA : (SetReply {} r).Answer = [] := by rw [SetReply_Answer]
  cases hq : r.Question with
  | nil =>
    have hQ : (SetReply {} r).Question = [] := by rw [SetReply_Question, hq]; rfl
    refine ⟨{ SetReply {} r with Compress := false }, s, ?_, rfl, hQ, ?_, ?_⟩
    · unfold handleDNS
      simp only []
      rw [if_neg hop']
      simp only [hQ, questionLoop]
    · intro _
      exact ⟨rfl, hA⟩
    · intro q rest h
      cases h
  | cons q rest =>
    have hQ : (SetReply {} r).Question = [q] := by rw [SetReply_Question, hq]; rfl
    obtain ⟨answers, err, s', hp, hw, ha⟩ := processQuestion_returns env c q
      (env.MakeDecision ⟨w.RemoteAddr, q.Name⟩)
      { s with aclCalls := s.aclCalls ++ [⟨w.RemoteAddr, q.Name⟩] } hlock
    cases err with
    | none =>
      refine ⟨{ SetReply {} r with Compress := false, Answer := [] ++ answers }, s',
        ?_, ?_, hQ, ?_, ?_⟩
      · unfold handleDNS
        simp only []
        rw [if_neg hop']
        simp only [hQ, questionLoop, hp, hA]
      · show s'.written ++ _ = _
        rw [hw]
      · intro h
        cases h
      · intro q2 rest2 h
        cases h
        exact ⟨answers, none, hp, ha, by simp⟩
    | some e =>
      refine ⟨{ SetReply {} r with Compress := false }, s', ?_, ?_, hQ, ?_, ?_⟩
      · unfold handleDNS
        simp only []
        rw [if_neg hop']
        simp only [hQ, questionLoop, hp]
      · show s'.written ++ _ = _
        rw [hw]
      · intro h
        cases h
      · intro q2 rest2 h
        cases h
        exact ⟨answers, some e, hp, ha, hA⟩

/-- The amended C5 at the sample environment: of the two questions, the first
an A question decided `ProxyIP` and the second decided `Reject`, the handler
returns with one reply, which answers the first question with one record, and
the counters show one question processed. -/
theorem handleDNS_answers_first_question_witness :
    (∃ m s', handleDNS sampleEnv sampleConfig ⟨"198.51.100.7:5353"⟩
        { Opcode := OpcodeQuery,
          Question := [⟨"proxy.example.", TypeA, ClassINET⟩,
                       ⟨"blocked.example.", TypeA, ClassINET⟩] }
        State.init = some (WriteMsg m s') ∧
      (WriteMsg m s').written = State.init.written ++ [m] ∧
      m.Question = [⟨"proxy.example.", TypeA, ClassINET⟩]) ∧
    (handleDNS sampleEnv sampleConfig ⟨"198.51.100.7:5353"⟩
        { Opcode := OpcodeQuery,
          Question := [⟨"proxy.example.", TypeA, ClassINET⟩,
                       ⟨"blocked.example.", TypeA, ClassINET⟩] }
        State.init).map
      (fun s' => (s'.written.map (fun m => m.Answer), s'.RecievedDNS, s'.aclCalls.length))
      = some ([[some (.A (hdr "proxy.example." TypeA) [192, 0, 2, 1])]], 1, 1) :=
  ⟨(handleDNS_answers_first_question sampleEnv sampleConfig ⟨"198.51.100.7:5353"⟩
      { Opcode := OpcodeQuery,
        Question := [⟨"proxy.example.", TypeA, ClassINET⟩,
                     ⟨"blocked.example.", TypeA, ClassINET⟩] }
      State.init (by decide) (by decide)).imp
      (fun _ hm => hm.imp (fun _ h => ⟨h.1, h.2.1, h.2.2.1⟩)),
   by decide⟩

/-- C6: for an inbound message whose opcode is not the standard-query opcode,
the handler returns after writing exactly one reply; the reply has the response
code NotImplemented and an empty answer section; the policy engine is not
consulted, nothing is sent upstream, no reconnect is made, and the received and
proxied counters are unchanged. -/
theorem handleDNS_not_query_opcode (env : Env) (c : Config) (w : ResponseWriter)
    (r : Msg) (s : State) (hop : r.Opcode ≠ OpcodeQuery) :
    ∃ m s', handleDNS env c w r s = some s' ∧
      s'.written = s.written ++ [m] ∧
      m.Rcode = RcodeNotImplemented ∧ m.Answer = [] ∧
      s'.aclCalls = s.aclCalls ∧ s'.sent = s.sent ∧ s'.reconnects = s.reconnects ∧
      s'.RecievedDNS = s.RecievedDNS ∧ s'.ProxiedDNS = s.ProxiedDNS ∧
      s'.dnsLock = s.dnsLock ∧ s'.log = s.log := by
  refine ⟨SetRcode { SetReply {} r with Compress := false } r RcodeNotImplemented,
    WriteMsg (SetRcode { SetReply {} r with Compress := false } r RcodeNotImplemented) s,
    ?_, rfl, rfl, ?_, rfl, rfl, rfl, rfl, rfl, rfl, rfl⟩
  · unfold handleDNS
    simp only []
    rw [if_pos hop]
  · show (SetReply { SetReply {} r with Compress := false } r).Answer = []
    rw [SetReply_Answer]
    show (SetReply {} r).Answer = []
    rw [SetReply_Answer]

/-- C6 at the sample environment: a message with the opcode 5 (update). -/
theorem handleDNS_not_query_opcode_witness :
    ∃ m s', handleDNS sampleEnv sampleConfig ⟨"198.51.100.7:5353"⟩
        { Opcode := 5, Question := [⟨"proxy.example.", TypeA, ClassINET⟩] } State.init
        = some s' ∧
      s'.written = State.init.written ++ [m] ∧
      m.Rcode = RcodeNotImplemented ∧ m.Answer = [] ∧
      s'.aclCalls = State.init.aclCalls ∧ s'.sent = State.init.sent ∧
      s'.reconnects = State.init.reconnects ∧
      s'.RecievedDNS = State.init.RecievedDNS ∧ s'.ProxiedDNS = State.init.ProxiedDNS ∧
      s'.dnsLock = State.init.dnsLock ∧ s'.log = State.init.log :=
  handleDNS_not_query_opcode sampleEnv sampleConfig ⟨"198.51.100.7:5353"⟩
    { Opcode := 5, Question := [⟨"proxy.example.", TypeA, ClassINET⟩] } State.init
    (by decide)

/-! ## Recursive address lookup -/

/-- One step of `lookupDomain4` with fuel left, its local bindings inlined. -/
theorem lookupDomain4_succ (env : Env) (fuel : Nat) (domain : String) (s : State) :
    lookupDomain4 env (fuel + 1) domain s =
      match PerformExternalAQuery env .client (fqdnOf domain) TypeA s with
      | none => none
      | some (r, s) =>
        match r.err with
        | some e => some (.ret [] (some e), s)
        | none =>
          match r.res with
          | [] => some (.ret [] (some ("[DNS] Empty DNS response for " ++ fqdnOf domain)), s)
          | none :: _ => some (.panicked, s)
          | some rr :: _ =>
            if rr.Header.Rrtype = TypeCNAME then
              match rr with
              | .CNAME _ target => lookupDomain4 env fuel target s
              | _ => some (.panicked, s)
            else if rr.Header.Rrtype = TypeA then
              match rr with
              | .A _ ip => some (.ret ip none, s)
              | _ => some (.panicked, s)
            else
              some (.ret [] (some ("[DNS] Unknown type " ++
                env.TypeToString rr.Header.Rrtype)), s) := by
  rfl

/-- The lookup of a name and of its fully-qualified form are the same run. -/
theorem lookupDomain4_fqdnOf (env : Env) (fuel : Nat) (domain : String) (s : State) :
    lookupDomain4 env fuel (fqdnOf domain) s = lookupDomain4 env fuel domain s := by
  cases fuel with
  | zero => rfl
  | succ fuel => rw [lookupDomain4_succ, lookupDomain4_succ, fqdnOf_fqdnOf]

/-- A chain of length zero: the answer for the name starts with an A record. -/
theorem followChain_zero (answers : String → List RR) (d : String) (ip : IP)
    (h : followChain answers 0 d = some ip) :
    ∃ hd rest, answers (fqdnOf d) = some (.A hd ip) :: rest ∧ hd.Rrtype = TypeA := by
  unfold followChain at h
  split at h
  · rename_i hd ip' rest heq
    by_cases ht : hd.Rrtype = TypeA
    · rw [if_pos ht] at h
      cases h
      exact ⟨hd, rest, heq, ht⟩
    · rw [if_neg ht] at h
      cases h
  · cases h

/-- A longer chain: the answer for the name starts with a CNAME record, and the
rest of the chain starts at its target. -/
theorem followChain_succ (answers : String → List RR) (n : Nat) (d : String) (ip : IP)
    (h : followChain answers (n + 1) d = some ip) :
    ∃ hd target rest, answers (fqdnOf d) = some (.CNAME hd target) :: rest ∧
      hd.Rrtype = TypeCNAME ∧ followChain answers n target = some ip := by
  unfold followChain at h
  split at h
  · rename_i hd target rest heq
    by_cases ht : hd.Rrtype = TypeCNAME
    · rw [if_pos ht] at h
      exact ⟨hd, target, rest, heq, ht, h⟩
    · rw [if_neg ht] at h
      cases h
  · cases h

/-- The run of `lookupDomain4` along an alias chain, with the final state. -/
theorem lookupDomain4_chain_run (env : Env) (answers : String → List RR)
    (hup : ∀ k fq, (env.Query k (buildQuery fq TypeA)).res = answers fq ∧
      (env.Query k (buildQuery fq TypeA)).err = none) :
    ∀ (n : Nat) (d : String) (ip : IP) (s : State) (fuel : Nat),
      s.dnsLock = false → followChain answers n d = some ip → n < fuel →
      ∃ s', lookupDomain4 env fuel d s = some (.ret ip none, s') ∧
        s'.sent.length = s.sent.length + (n + 1) ∧ s'.dnsLock = false ∧
        s'.reconnects = s.reconnects := by
  intro n
  induction n with
  | zero =>
    intro d ip s fuel hlock hchain hfuel
    obtain ⟨fuel, rfl⟩ : ∃ f, fuel = f + 1 := ⟨fuel - 1, by omega⟩
    obtain ⟨hd, rest, hans, ht⟩ := followChain_zero answers d ip hchain
    have hq := hup s.sent.length (fqdnOf d)
    have hne : ¬ (hd.Rrtype = TypeCNAME) := by rw [ht]; decide
    rw [lookupDomain4_succ, PerformExternalAQuery_ok env (fqdnOf d) TypeA s hlock
      (by rw [fqdnOf_fqdnOf]; exact hq.2)]
    simp only [fqdnOf_fqdnOf, hq.1, hans, RRData.Header, if_neg hne, if_pos ht]
    exact ⟨_, rfl, by simp, rfl, rfl⟩
  | succ n ih =>
    intro d ip s fuel hlock hchain hfuel
    obtain ⟨fuel, rfl⟩ : ∃ f, fuel = f + 1 := ⟨fuel - 1, by omega⟩
    obtain ⟨hd, target, rest, hans, ht, hrest⟩ := followChain_succ answers n d ip hchain
    have hq := hup s.sent.length (fqdnOf d)
    rw [lookupDomain4_succ, PerformExternalAQuery_ok env (fqdnOf d) TypeA s hlock
      (by rw [fqdnOf_fqdnOf]; exact hq.2)]
    simp only [fqdnOf_fqdnOf, hq.1, hans, RRData.Header, if_pos ht]
    obtain ⟨s', hrun, hlen, hl, hr⟩ := ih target ip
      { s with sent := s.sent ++ [buildQuery (fqdnOf d) TypeA], dnsLock := false }
      fuel rfl hrest (by omega)
    refine ⟨s', hrun, ?_, hl, hr⟩
    rw [hlen]
    simp
    omega

/-- C7: when the upstream answers every A question for a fully-qualified name
`fq` with `answers fq` and no error, and following the first records from `d`
gives `n` CNAME records and then an A record with address `ip`, then
`lookupDomain4` on `d` (started with the lock free, with any fuel above `n`)
returns `ip` with a nil error after exactly `n + 1` upstream exchanges, and the
run on the fully-qualified form of `d` is the same. -/
theorem lookupDomain4_follows_chain (env : Env) (answers : String → List RR)
    (n : Nat) (d : String) (ip : IP) (s : State) (fuel : Nat)
    (hup : ∀ k fq, (env.Query k (buildQuery fq TypeA)).res = answers fq ∧
      (env.Query k (buildQuery fq TypeA)).err = none)
    (hlock : s.dnsLock = false)
    (hchain : followChain answers n d = some ip)
    (hfuel : n < fuel) :
    ∃ s', lookupDomain4 env fuel d s = some (.ret ip none, s') ∧
      lookupDomain4 env fuel (fqdnOf d) s = some (.ret ip none, s') ∧
      s'.sent.length = s.sent.length + (n + 1) ∧
      s'.dnsLock = false ∧ s'.reconnects = s.reconnects := by
  obtain ⟨s', hrun, hlen, hl, hr⟩ :=
    lookupDomain4_chain_run env answers hup n d ip s fuel hlock hchain hfuel
  exact ⟨s', hrun, by rw [lookupDomain4_fqdnOf]; exact hrun, hlen, hl, hr⟩

/-- C7 at the stable sample upstream: `a.example.` is an alias of `b.example.`,
whose address is 10.0.0.5; two exchanges are made. -/
theorem lookupDomain4_follows_chain_witness :
    ∃ s', lookupDomain4 stableEnv 2 "a.example" State.init
        = some (.ret [10, 0, 0, 5] none, s') ∧
      lookupDomain4 stableEnv 2 (fqdnOf "a.example") State.init
        = some (.ret [10, 0, 0, 5] none, s') ∧
      s'.sent.length = State.init.sent.length + (1 + 1) ∧
      s'.dnsLock = false ∧ s'.reconnects = State.init.reconnects :=
  lookupDomain4_follows_chain stableEnv sampleAnswers 1 "a.example" [10, 0, 0, 5]
    State.init 2 (fun _ _ => ⟨rfl, rfl⟩) (by decide) (by decide) (by decide)

/-- C8: when the upstream exchange for the A question of the fully-qualified
form of `d` succeeds with zero records, `lookupDomain4` on `d` (started with
the lock free, with any fuel) returns the nil address together with the
error `[DNS] Empty DNS response for ` followed by that fully-qualified name; the
error is not nil and its text ends with the name. -/
theorem lookupDomain4_empty_answer (env : Env) (d : String) (s : State) (fuel : Nat)
    (hlock : s.dnsLock = false)
    (hres : (env.Query s.sent.length (buildQuery (fqdnOf d) TypeA)).res = [])
    (herr : (env.Query s.sent.length (buildQuery (fqdnOf d) TypeA)).err = none) :
    ∃ e s', lookupDomain4 env (fuel + 1) d s = some (.ret [] (some e), s') ∧
      e = "[DNS] Empty DNS response for " ++ fqdnOf d ∧
      (fqdnOf d).data <:+ e.data ∧
      HasSuffix (fqdnOf d) "." = true := by
  refine ⟨"[DNS] Empty DNS response for " ++ fqdnOf d,
    { s with sent := s.sent ++ [buildQuery (fqdnOf d) TypeA], dnsLock := false },
    ?_, rfl, ?_, HasSuffix_fqdnOf d⟩
  · rw [lookupDomain4_succ, PerformExternalAQuery_ok env (fqdnOf d) TypeA s hlock
      (by rw [fqdnOf_fqdnOf]; exact herr)]
    simp only [fqdnOf_fqdnOf, hres]
  · rw [String.data_append]
    exact List.suffix_append _ _

/-- C8 at the sample environment: `none.example.` has no record. -/
theorem lookupDomain4_empty_answer_witness :
    ∃ e s', lookupDomain4 sampleEnv (0 + 1) "none.example" State.init
        = some (.ret [] (some e), s') ∧
      e = "[DNS] Empty DNS response for " ++ fqdnOf "none.example" ∧
      (fqdnOf "none.example").data <:+ e.data ∧
      HasSuffix (fqdnOf "none.example") "." = true :=
  lookupDomain4_empty_answer sampleEnv "none.example" State.init 0
    (by decide) (by decide) (by decide)

/-! ## Listener start-up -/

/-- C9 (as stated, refuted): with only the TLS listener configured and the key
pair loaded, a failure of `ListenAndServe` of the TLS listener makes its
goroutine log the error and return; no goroutine panics and the process is not
terminated. -/
theorem RunDNS_TLS_bind_failure_not_fatal :
    serveTLS sampleConfig none (some "bind: address already in use") =
      { log := [.startedDoT "0.0.0.0:853", .tlsError "bind: address already in use"],
        shutdown := true, exit := .returned } ∧
    (RunDNS sampleConfig
      ⟨none, none, none, some "bind: address already in use", none, none⟩).terminated
        = false := by
  decide

/-- C9 (amended): a listener goroutine of `RunDNS` terminates the process
exactly when the UDP listener is configured and its `ListenAndServe` fails, or
the TLS listener is configured and loading its key pair fails. A failure of
`ListenAndServe` of the UDP listener is logged and panics; one of the TCP
listener is logged and the goroutine returns; one of the TLS listener is
logged and the goroutine returns; a failure to load the TLS key pair is logged
and panics. -/
theorem RunDNS_terminated_iff (c : Config) (o : StartOutcomes) :
    ((RunDNS c o).terminated = true ↔
      (c.BindDNSOverUDP ≠ "" ∧ o.udpListen ≠ none) ∨
      (c.BindDNSOverTLS ≠ "" ∧ o.tlsLoad ≠ none)) ∧
    (∀ e, (serveUDP c (some e)).exit = .panicked 2 ∧
      .errorStartingUDP e ∈ (serveUDP c (some e)).log) ∧
    (∀ e, (serveTCP c (some e)).exit = .returned ∧
      .failedToStartTCP e ∈ (serveTCP c (some e)).log) ∧
    (∀ e, (serveTLS c none (some e)).exit = .returned ∧
      .tlsError e ∈ (serveTLS c none (some e)).log) ∧
    (∀ e listenErr, (serveTLS c (some e) listenErr).exit = .panicked 2 ∧
      .tlsError e ∈ (serveTLS c (some e) listenErr).log) := by
  refine ⟨?_, ?_, ?_, ?_, ?_⟩
  · unfold RunResult.terminated RunDNS
    simp only []
    by_cases hu : c.BindDNSOverUDP = "" <;> by_cases ht : c.BindDNSOverTCP = "" <;>
      by_cases hl : c.BindDNSOverTLS = "" <;>
      cases hul : o.udpListen <;> cases htl : o.tcpListen <;>
      cases hll : o.tlsLoad <;> cases hls : o.tlsListen <;>
      simp [hu, ht, hl, ListenerRun.fatal, serveUDP, serveTCP, serveTLS]
  · intro e
    simp [serveUDP]
  · intro e
    simp [serveTCP]
  · intro e
    simp [serveTLS]
  · intro e listenErr
    simp [serveTLS]

end Sniproxy
